import Mathlib

/-!
Verification of the window-layout core of `remacs` (`rust_src/src/windows.rs`)
against its specification.  The Rust module is shallowly embedded: the
`Lisp_Window` structure becomes the `Window` structure, Lisp values become the
`LispObject` inductive, fallible operations return `Except`, and mutation is
explicit state passing.
-/

namespace Remacs

/-- Lisp values, as far as this module distinguishes them.  Buffers carry the
two buffer-local format fields that `windows.rs` reads; window objects are
identified by an id (pointer identity in the source). -/
inductive LispObject where
  | nil
  | t
  | sym (s : String)
  | num (n : Int)
  | cons (car cdr : LispObject)
  | buffer (mode_line_format : LispObject) (header_line_format : LispObject)
  | window (id : Nat)
deriving DecidableEq, Repr

def Qnil : LispObject := .nil
def Qt : LispObject := .t
def Qnone : LispObject := .sym "none"
def Qfloor : LispObject := .sym "floor"
def Qceiling : LispObject := .sym "ceiling"
def Qmode_line_format : LispObject := .sym "mode-line-format"
def Qheader_line_format : LispObject := .sym "header-line-format"

/-- Embeds `LispObject::is_not_nil`. -/
def LispObject.is_not_nil : LispObject → Bool
  | .nil => false
  | _ => true

/-- Contents-slot test used by `LispWindowRef::is_live`: is it a buffer? -/
def LispObject.is_buffer : LispObject → Bool
  | .buffer _ _ => true
  | _ => false

/-- Embeds `LispObject::is_window`. -/
def LispObject.is_window : LispObject → Bool
  | .window _ => true
  | _ => false

/-- Embeds `LispObject::as_window`: the window id when the object is a window. -/
def LispObject.as_window : LispObject → Option Nat
  | .window i => some i
  | _ => none

/-- The frame fields `windows.rs` reads: canonical character cell sizes and
the frame's selected window. -/
structure Frame where
  column_width : Int
  line_height : Int
  selected_window : LispObject
deriving DecidableEq, Repr

/-- The `Lisp_Window` fields exercised by this module.  `id` stands for the
pointer identity of the window object; `contents` is a buffer for a leaf, a
window for an internal node, nil for a deleted window. -/
structure Window where
  id : Nat
  contents : LispObject
  frame : Frame
  mini : Bool
  pseudo_window_p : Bool
  pixel_width : Int
  pixel_height : Int
  total_cols : Int
  total_lines : Int
  combination_limit : LispObject
  window_parameters : List (LispObject × LispObject)
  dedicated : LispObject
  hscroll : Int
  min_hscroll : Int
  suspend_auto_hscroll : Bool
  start : LispObject
  start_at_line_beg : Bool
  force_start : Bool
  window_end_valid : Bool
  update_mode_line : Bool
  redisplay : Bool
  new_total : Int
  new_normal : LispObject
  horizontal : Bool
deriving DecidableEq, Repr

namespace Window

/-- Embeds `LispWindowRef::is_live`: the window displays a buffer (a leaf window). -/
def is_live (w : Window) : Bool := w.contents.is_buffer

/-- Embeds `LispWindowRef::is_valid`: the contents slot is non-nil. -/
def is_valid (w : Window) : Bool := w.contents.is_not_nil

/-- Embeds `LispWindowRef::is_internal`: the contents slot is a window. -/
def is_internal (w : Window) : Bool := w.contents.is_window

/-- Embeds `LispWindowRef::is_pseudo`. -/
def is_pseudo (w : Window) : Bool := w.pseudo_window_p

/-- Embeds `LispWindowRef::is_minibuffer`. -/
def is_minibuffer (w : Window) : Bool := w.mini

end Window

/-- A default frame and window used to build concrete test states. -/
def frame0 : Frame :=
  { column_width := 10, line_height := 16, selected_window := .window 0 }

def win0 : Window :=
  { id := 0, contents := .buffer .nil .nil, frame := frame0, mini := false,
    pseudo_window_p := false, pixel_width := 305, pixel_height := 305,
    total_cols := 30, total_lines := 19, combination_limit := .nil,
    window_parameters := [], dedicated := .nil, hscroll := 0, min_hscroll := 0,
    suspend_auto_hscroll := false, start := .num 1, start_at_line_beg := false,
    force_start := false, window_end_valid := false, update_mode_line := false,
    redisplay := false, new_total := 0, new_normal := .nil, horizontal := false }

/-- Embeds `LispWindowRef::total_width`: with `floor`/`ceiling` rounding, divide the
pixel width by the frame's `column_width` unit (Rust `i32` division truncates
toward zero, `Int.tdiv`); any other rounding argument returns the cached
`total_cols`. -/
def Window.total_width (w : Window) (round : LispObject) : Int :=
  if ¬(round = Qfloor ∨ round = Qceiling) then
    w.total_cols
  else if round = Qceiling then
    (w.pixel_width + w.frame.column_width - 1).tdiv w.frame.column_width
  else
    w.pixel_width.tdiv w.frame.column_width

/-- Embeds `LispWindowRef::total_height`: same as `total_width` with `pixel_height`,
the frame's `line_height` unit and the cached `total_lines`. -/
def Window.total_height (w : Window) (round : LispObject) : Int :=
  if ¬(round = Qfloor ∨ round = Qceiling) then
    w.total_lines
  else if round = Qceiling then
    (w.pixel_height + w.frame.line_height - 1).tdiv w.frame.line_height
  else
    w.pixel_height.tdiv w.frame.line_height

theorem total_width_floor (w : Window) :
    w.total_width Qfloor = w.pixel_width.tdiv w.frame.column_width := by
  rw [Window.total_width, if_neg (by decide), if_neg (by decide)]

theorem total_width_ceiling (w : Window) :
    w.total_width Qceiling =
      (w.pixel_width + w.frame.column_width - 1).tdiv w.frame.column_width := by
  rw [Window.total_width, if_neg (by decide), if_pos (by decide)]

theorem total_height_floor (w : Window) :
    w.total_height Qfloor = w.pixel_height.tdiv w.frame.line_height := by
  rw [Window.total_height, if_neg (by decide), if_neg (by decide)]

theorem total_height_ceiling (w : Window) :
    w.total_height Qceiling =
      (w.pixel_height + w.frame.line_height - 1).tdiv w.frame.line_height := by
  rw [Window.total_height, if_neg (by decide), if_pos (by decide)]

theorem nat_ceil_div_eq (m n : Nat) (h : 0 < n) :
    (m + n - 1) / n = m / n + if m % n = 0 then 0 else 1 := by
  have h1 : m + n - 1 = m + (n - 1) := by omega
  rw [h1, Nat.add_div h]
  have h2 : (n - 1) / n = 0 := Nat.div_eq_of_lt (by omega)
  have h3 : (n - 1) % n = n - 1 := Nat.mod_eq_of_lt (by omega)
  have hx : m % n < n := Nat.mod_lt _ h
  rw [h2, h3]
  by_cases hm : m % n = 0
  · rw [if_pos hm, if_neg (show ¬ n ≤ m % n + (n - 1) by omega)]
  · rw [if_neg hm, if_pos (show n ≤ m % n + (n - 1) by omega)]

/-- Floor division is at most ceiling division computed as in the source,
with equality exactly on multiples of the unit. -/
theorem int_tdiv_ceil_facts (p u : Int) (hp : 0 ≤ p) (hu : 0 < u) :
    p.tdiv u ≤ (p + u - 1).tdiv u ∧
    (p.tdiv u = (p + u - 1).tdiv u ↔ p % u = 0) := by
  obtain ⟨m, rfl⟩ := Int.eq_ofNat_of_zero_le hp
  obtain ⟨n, rfl⟩ := Int.eq_ofNat_of_zero_le hu.le
  have hn : 0 < n := by exact_mod_cast hu
  have hcast : ((m : Int) + n - 1) = ((m + n - 1 : Nat) : Int) := by
    rw [Nat.cast_sub (by omega)]
    push_cast
    ring
  rw [hcast, ← Int.ofNat_tdiv, ← Int.ofNat_tdiv]
  have hkey := nat_ceil_div_eq m n hn
  have hmod : ((m : Int) % (n : Int) = 0) ↔ m % n = 0 := by
    constructor <;> intro h <;> exact_mod_cast h
  constructor
  · have : m / n ≤ (m + n - 1) / n := by rw [hkey]; omega
    exact_mod_cast this
  · rw [hmod]
    constructor
    · intro he
      have he' : m / n = (m + n - 1) / n := by exact_mod_cast he
      rw [hkey] at he'
      by_cases hz : m % n = 0
      · exact hz
      · rw [if_neg hz] at he'
        exact absurd he'.symm (Nat.succ_ne_self (m / n))
    · intro hz
      have : (m + n - 1) / n = m / n := by
        rw [hkey, if_pos hz]
        exact Nat.add_zero _
      exact_mod_cast this.symm

/-- C2: for a valid window with positive canonical units and non-negative
pixel extents, `total_width`/`total_height` with `floor` return the truncated
quotient, with `ceiling` return `(p + u - 1) / u`, the floor result is at
most the ceiling result, and they agree exactly when the unit divides the
pixel extent. -/
theorem c2_total_size_rounding (w : Window)
    (hv : w.is_valid = true)
    (hcw : 0 < w.frame.column_width) (hlh : 0 < w.frame.line_height)
    (hpw : 0 ≤ w.pixel_width) (hph : 0 ≤ w.pixel_height) :
    (w.total_width Qfloor = w.pixel_width.tdiv w.frame.column_width ∧
     w.total_width Qceiling =
       (w.pixel_width + w.frame.column_width - 1).tdiv w.frame.column_width ∧
     w.total_width Qfloor ≤ w.total_width Qceiling ∧
     (w.total_width Qfloor = w.total_width Qceiling ↔
       w.pixel_width % w.frame.column_width = 0)) ∧
    (w.total_height Qfloor = w.pixel_height.tdiv w.frame.line_height ∧
     w.total_height Qceiling =
       (w.pixel_height + w.frame.line_height - 1).tdiv w.frame.line_height ∧
     w.total_height Qfloor ≤ w.total_height Qceiling ∧
     (w.total_height Qfloor = w.total_height Qceiling ↔
       w.pixel_height % w.frame.line_height = 0)) := by
  obtain ⟨hle, hiff⟩ :=
    int_tdiv_ceil_facts w.pixel_width w.frame.column_width hpw hcw
  obtain ⟨hle2, hiff2⟩ :=
    int_tdiv_ceil_facts w.pixel_height w.frame.line_height hph hlh
  refine ⟨⟨total_width_floor w, total_width_ceiling w, ?_, ?_⟩,
    ⟨total_height_floor w, total_height_ceiling w, ?_, ?_⟩⟩
  · rw [total_width_floor, total_width_ceiling]; exact hle
  · rw [total_width_floor, total_width_ceiling]; exact hiff
  · rw [total_height_floor, total_height_ceiling]; exact hle2
  · rw [total_height_floor, total_height_ceiling]; exact hiff2

/-- Witness for C2: a 305x305-pixel window on a frame with 10x16 units:
floor width is 30, ceiling width is 31 (305 is not a multiple of 10). -/
theorem c2_total_size_rounding_witness :
    win0.is_valid = true ∧ 0 < win0.frame.column_width ∧
    win0.total_width Qfloor = 30 ∧ win0.total_width Qceiling = 31 ∧
    win0.total_width Qfloor ≤ win0.total_width Qceiling ∧
    ¬ win0.total_width Qfloor = win0.total_width Qceiling := by
  have h := c2_total_size_rounding win0 rfl (by decide) (by decide)
    (by decide) (by decide)
  refine ⟨rfl, by decide, ?_, ?_, h.1.2.2.1, ?_⟩
  · rw [h.1.1]; decide
  · rw [h.1.2.1]; decide
  · intro he
    exact absurd (h.1.2.2.2.mp he) (by decide)

/-- C1: for every window whose contents slot is one of the three shapes the
data model allows (buffer, window, nil), validity is equivalent to being live
or internal, live and internal never hold together, and exactly one of the
classes Leaf, Internal, Empty holds. -/
theorem c1_window_classification (w : Window)
    (hwf : w.contents.is_buffer = true ∨ w.contents.is_window = true ∨
      w.contents = .nil) :
    (w.is_valid = true ↔ (w.is_live = true ∨ w.is_internal = true)) ∧
    ¬(w.is_live = true ∧ w.is_internal = true) ∧
    ((w.is_live = true ∧ w.is_internal = false ∧ w.contents ≠ .nil) ∨
     (w.is_live = false ∧ w.is_internal = true ∧ w.contents ≠ .nil) ∨
     (w.is_live = false ∧ w.is_internal = false ∧ w.contents = .nil)) := by
  unfold Window.is_valid Window.is_live Window.is_internal at *
  rcases hwf with h | h | h
  · cases hc : w.contents <;> simp_all [LispObject.is_buffer,
      LispObject.is_window, LispObject.is_not_nil]
  · cases hc : w.contents <;> simp_all [LispObject.is_buffer,
      LispObject.is_window, LispObject.is_not_nil]
  · simp_all [LispObject.is_buffer, LispObject.is_window,
      LispObject.is_not_nil]

/-- Witness for C1 at a concrete leaf window. -/
theorem c1_window_classification_witness :
    (win0.is_valid = true ↔ (win0.is_live = true ∨ win0.is_internal = true)) ∧
    ¬(win0.is_live = true ∧ win0.is_internal = true) ∧
    ((win0.is_live = true ∧ win0.is_internal = false ∧ win0.contents ≠ .nil) ∨
     (win0.is_live = false ∧ win0.is_internal = true ∧ win0.contents ≠ .nil) ∨
     (win0.is_live = false ∧ win0.is_internal = false ∧
       win0.contents = .nil)) :=
  c1_window_classification win0 (by left; rfl)

theorem LispObject.is_not_nil_iff (o : LispObject) :
    o.is_not_nil = true ↔ o ≠ .nil := by
  cases o <;> simp [LispObject.is_not_nil]

/-- Modelled from the spec: `assq` lives in lists.rs, outside this module.
Per spec section 4.4 the parameter store read is a linear scan in which the
first entry with a matching key wins; the result is the matching entry. -/
def assq (key : LispObject) :
    List (LispObject × LispObject) → Option (LispObject × LispObject)
  | [] => none
  | e :: rest => if e.1 = key then some e else assq key rest

/-- Embeds `LispWindowRef::get_parameter`: the cdr of the `assq` match, nil when
absent. -/
def Window.get_parameter (w : Window) (parameter : LispObject) : LispObject :=
  match assq parameter w.window_parameters with
  | some e => e.2
  | none => Qnil

/-- Embeds `self.contents.as_buffer_or_error().mode_line_format_`; in
`wants_mode_line` this is evaluated only behind the `is_live` short-circuit
guard, so the non-buffer branch is unreachable there. -/
def LispObject.buffer_mode_line_format : LispObject → LispObject
  | .buffer mlf _ => mlf
  | _ => .nil

/-- Embeds `LispWindowRef::wants_mode_line`: leaf, neither minibuffer nor pseudo,
the `mode-line-format` window parameter is not the symbol `none`, that
parameter or the buffer's `mode_line_format_` is non-nil, and the pixel
height exceeds the frame's canonical line height. -/
def Window.wants_mode_line (w : Window) : Bool :=
  let window_mode_line_format := w.get_parameter Qmode_line_format
  w.is_live && !w.is_minibuffer && !w.is_pseudo
    && !(decide (window_mode_line_format = Qnone))
    && (window_mode_line_format.is_not_nil
        || w.contents.buffer_mode_line_format.is_not_nil)
    && decide (w.frame.line_height < w.pixel_height)

/-- C3: `wants_mode_line` holds exactly when the window is live, not a
minibuffer, not pseudo, its `mode-line-format` parameter is not `none`, that
parameter or its buffer's mode-line-format is non-nil, and its pixel height
exceeds the frame's line height; in particular it is false for every
minibuffer or pseudo window. -/
theorem c3_wants_mode_line (w : Window) :
    (w.wants_mode_line = true ↔
      (w.is_live = true ∧ w.is_minibuffer = false ∧ w.is_pseudo = false ∧
       w.get_parameter Qmode_line_format ≠ Qnone ∧
       (w.get_parameter Qmode_line_format ≠ Qnil ∨
        w.contents.buffer_mode_line_format ≠ Qnil) ∧
       w.frame.line_height < w.pixel_height)) ∧
    ((w.is_minibuffer = true ∨ w.is_pseudo = true) →
      w.wants_mode_line = false) := by
  constructor
  · simp only [Window.wants_mode_line, Bool.and_eq_true, Bool.not_eq_true',
      decide_eq_false_iff_not, decide_eq_true_eq, Bool.or_eq_true, Qnil,
      LispObject.is_not_nil_iff]
    tauto
  · intro h
    rcases h with h | h <;>
      simp [Window.wants_mode_line, h]

/-- Witness for C3: a minibuffer window never wants a mode line. -/
theorem c3_wants_mode_line_witness :
    (({ win0 with mini := true } : Window).is_minibuffer = true ∨
      ({ win0 with mini := true } : Window).is_pseudo = true) ∧
    ({ win0 with mini := true } : Window).wants_mode_line = false :=
  ⟨Or.inl rfl, (c3_wants_mode_line { win0 with mini := true }).2 (Or.inl rfl)⟩

/-- Modelled from the spec: `setcdr` on the cons cell found by `assq`
(lists.rs is outside this module).  Per spec section 4.4 the value cell of
the existing entry is overwritten in place, preserving the entry's position
and every other entry; this overwrites the value of the first entry whose
key matches. -/
def setcdr_assq (key value : LispObject) :
    List (LispObject × LispObject) → List (LispObject × LispObject)
  | [] => []
  | e :: rest =>
    if e.1 = key then (e.1, value) :: rest
    else e :: setcdr_assq key value rest

/-- Embeds `set_window_parameter` (windows.rs): when `assq` finds no entry, prepend
a fresh (PARAMETER . VALUE) entry, otherwise `setcdr` the found entry;
return VALUE. -/
def set_window_parameter (w : Window) (parameter value : LispObject) :
    Window × LispObject :=
  if (assq parameter w.window_parameters).isNone then
    ({ w with window_parameters := (parameter, value) :: w.window_parameters },
      value)
  else
    ({ w with window_parameters :=
        setcdr_assq parameter value w.window_parameters }, value)

theorem setcdr_assq_length (k v : LispObject)
    (l : List (LispObject × LispObject)) :
    (setcdr_assq k v l).length = l.length := by
  induction l with
  | nil => rfl
  | cons e rest ih =>
    rw [setcdr_assq]
    by_cases h : e.1 = k
    · rw [if_pos h]
      rfl
    · rw [if_neg h]
      simp [ih]

theorem setcdr_assq_get? (k v : LispObject)
    (l : List (LispObject × LispObject)) (i : Nat) :
    ((setcdr_assq k v l).get? i).map Prod.fst = (l.get? i).map Prod.fst ∧
    (∀ e, l.get? i = some e → e.1 ≠ k → (setcdr_assq k v l).get? i = some e) := by
  induction l generalizing i with
  | nil => simp [setcdr_assq]
  | cons e rest ih =>
    rw [setcdr_assq]
    by_cases h : e.1 = k
    · rw [if_pos h]
      cases i with
      | zero =>
        refine ⟨rfl, ?_⟩
        intro e' he' hne
        simp only [List.get?] at he'
        cases he'
        exact absurd h hne
      | succ j =>
        refine ⟨rfl, ?_⟩
        intro e' he' _
        exact he'
    · rw [if_neg h]
      cases i with
      | zero => simp
      | succ j =>
        simpa [List.get?] using ih j

theorem assq_setcdr_assq_self (k v : LispObject)
    (l : List (LispObject × LispObject)) (e : LispObject × LispObject)
    (h : assq k l = some e) :
    assq k (setcdr_assq k v l) = some (e.1, v) := by
  induction l with
  | nil => simp [assq] at h
  | cons e' rest ih =>
    rw [assq] at h
    rw [setcdr_assq]
    by_cases he : e'.1 = k
    · rw [if_pos he] at h ⊢
      rw [assq, if_pos he]
      cases h
      rfl
    · rw [if_neg he] at h ⊢
      rw [assq, if_neg he]
      exact ih h

/-- C4: after `set_window_parameter`, looking up the same key returns the new
value; when an entry for the key existed, the list keeps its length, every
position keeps its key, and every entry with a different key is untouched;
when no entry existed, the new entry is prepended; looking up an absent key
returns nil. -/
theorem c4_parameter_store (w : Window) (k v : LispObject) :
    (set_window_parameter w k v).2 = v ∧
    (set_window_parameter w k v).1.get_parameter k = v ∧
    ((assq k w.window_parameters).isSome = true →
      ((set_window_parameter w k v).1.window_parameters.length =
        w.window_parameters.length ∧
       (∀ i, (((set_window_parameter w k v).1.window_parameters.get? i).map
          Prod.fst = (w.window_parameters.get? i).map Prod.fst)) ∧
       (∀ i e, w.window_parameters.get? i = some e → e.1 ≠ k →
         (set_window_parameter w k v).1.window_parameters.get? i = some e))) ∧
    (assq k w.window_parameters = none →
      (set_window_parameter w k v).1.window_parameters =
        (k, v) :: w.window_parameters) ∧
    (assq k w.window_parameters = none → w.get_parameter k = Qnil) := by
  refine ⟨?_, ?_, ?_, ?_, ?_⟩
  · rw [set_window_parameter]
    by_cases h : (assq k w.window_parameters).isNone
    · rw [if_pos h]
    · rw [if_neg h]
  · rw [set_window_parameter]
    cases h : assq k w.window_parameters with
    | none =>
      rw [if_pos (show (none : Option (LispObject × LispObject)).isNone = true
        from rfl)]
      rw [Window.get_parameter]
      simp [assq]
    | some e =>
      rw [if_neg (show ¬ (some e).isNone = true by simp)]
      rw [Window.get_parameter]
      simp [assq_setcdr_assq_self k v _ e h]
  · intro hsome
    have hne : ¬ (assq k w.window_parameters).isNone := by
      cases h : assq k w.window_parameters with
      | none => rw [h] at hsome; exact absurd hsome (by decide)
      | some e => simp [h]
    rw [set_window_parameter, if_neg hne]
    exact ⟨setcdr_assq_length k v _,
      fun i => (setcdr_assq_get? k v _ i).1,
      fun i e he hk => (setcdr_assq_get? k v _ i).2 e he hk⟩
  · intro h
    rw [set_window_parameter,
      if_pos (show (assq k w.window_parameters).isNone = true by rw [h]; rfl)]
  · intro h
    rw [Window.get_parameter, h]

/-- A window with two parameter entries, used as concrete C4 input. -/
def win4 : Window :=
  { win0 with window_parameters :=
      [(.sym "a", .num 1), (.sym "b", .num 2)] }

/-- Witness for C4: overwriting the existing key `b` keeps the entry for `a`
at position 0 and is observable through `get_parameter`; looking up the
absent key `c` returns nil. -/
theorem c4_parameter_store_witness :
    (set_window_parameter win4 (.sym "b") (.num 9)).1.window_parameters.get? 0
      = some (.sym "a", .num 1) ∧
    (set_window_parameter win4 (.sym "b") (.num 9)).1.get_parameter (.sym "b")
      = .num 9 ∧
    (set_window_parameter win4 (.sym "b") (.num 9)).1.window_parameters.length
      = 2 ∧
    win4.get_parameter (.sym "c") = Qnil := by
  have h := c4_parameter_store win4 (.sym "b") (.num 9)
  have hs := h.2.2.1 (by decide)
  refine ⟨hs.2.2 0 (.sym "a", .num 1) (by decide) (by decide), h.2.1, ?_, ?_⟩
  · rw [hs.1]
    rfl
  · exact (c4_parameter_store win4 (.sym "c") (.num 0)).2.2.2.2 (by decide)

/-- Embeds `set_window_new_total` (windows.rs): stage SIZE as the new total size, or
add SIZE to the staged value when ADD holds; store and return the result. -/
def set_window_new_total (w : Window) (size : Int) (add : Bool) :
    Window × Int :=
  let new_total := if !add then size else w.new_total + size
  ({ w with new_total := new_total }, new_total)

/-- Embeds `window_new_total` (windows.rs): the staged new total size. -/
def window_new_total (w : Window) : Int := w.new_total

/-- C5: staging `s` and then adding `s` stages and returns `s + s`; neither
call touches the authoritative pixel or total geometry, and
`window_new_total` reads back the last staged value. -/
theorem c5_new_total_staging (w : Window) (s s' : Int)
    (hv : w.is_valid = true) :
    (set_window_new_total w s false).2 = s ∧
    window_new_total (set_window_new_total w s false).1 = s ∧
    (set_window_new_total (set_window_new_total w s false).1 s' true).2 =
      s + s' ∧
    window_new_total
      (set_window_new_total (set_window_new_total w s false).1 s' true).1 =
      s + s' ∧
    (set_window_new_total w s false).1.pixel_width = w.pixel_width ∧
    (set_window_new_total w s false).1.pixel_height = w.pixel_height ∧
    (set_window_new_total w s false).1.total_cols = w.total_cols ∧
    (set_window_new_total w s false).1.total_lines = w.total_lines ∧
    (set_window_new_total (set_window_new_total w s false).1 s' true).1.pixel_width
      = w.pixel_width ∧
    (set_window_new_total (set_window_new_total w s false).1 s' true).1.pixel_height
      = w.pixel_height ∧
    (set_window_new_total (set_window_new_total w s false).1 s' true).1.total_cols
      = w.total_cols ∧
    (set_window_new_total (set_window_new_total w s false).1 s' true).1.total_lines
      = w.total_lines :=
  ⟨rfl, rfl, rfl, rfl, rfl, rfl, rfl, rfl, rfl, rfl, rfl, rfl⟩

/-- Witness for C5, the spec scenario: staging 5 then adding 3 yields 8 and
leaves the 305x305 pixel geometry alone. -/
theorem c5_new_total_staging_witness :
    win0.is_valid = true ∧
    (set_window_new_total (set_window_new_total win0 5 false).1 3 true).2
      = 8 ∧
    window_new_total
      (set_window_new_total (set_window_new_total win0 5 false).1 3 true).1
      = 8 ∧
    (set_window_new_total (set_window_new_total win0 5 false).1 3 true).1.pixel_width
      = 305 := by
  have h := c5_new_total_staging win0 5 3 rfl
  exact ⟨rfl, h.2.2.1.trans (by decide), h.2.2.2.1.trans (by decide),
    h.2.2.2.2.2.2.2.2.1.trans (by decide)⟩

/-- Errors signaled by this module: `error!` messages and `wrong_type!`
failures carrying the predicate name and the offending value. -/
inductive LispError where
  | wrong_type (pred : String) (obj : LispObject)
  | simple (msg : String)
deriving DecidableEq, Repr

/-- Embeds `window_combination_limit` (windows.rs): signals an error unless the
window is internal; otherwise returns the stored `combination_limit`. -/
def window_combination_limit (w : Window) : Except LispError LispObject :=
  if !w.is_internal then
    .error (.simple "Combination limit is meaningful for internal windows only")
  else
    .ok w.combination_limit

/-- Embeds `set_window_combination_limit` (windows.rs): signals an error unless the
window is internal; otherwise stores LIMIT and returns it. -/
def set_window_combination_limit (w : Window) (limit : LispObject) :
    Except LispError (Window × LispObject) :=
  if !w.is_internal then
    .error (.simple "Combination limit is meaningful for internal windows only")
  else
    .ok ({ w with combination_limit := limit }, limit)

/-- C6: getter and setter of the combination limit signal an error on every
non-internal window (so on every leaf); on an internal window the getter
returns the stored limit and the setter stores and returns LIMIT. -/
theorem c6_combination_limit (w : Window) (limit : LispObject) :
    (w.is_internal = false →
      window_combination_limit w =
        .error (.simple
          "Combination limit is meaningful for internal windows only") ∧
      set_window_combination_limit w limit =
        .error (.simple
          "Combination limit is meaningful for internal windows only")) ∧
    (w.is_live = true → w.is_internal = false) ∧
    (w.is_internal = true →
      window_combination_limit w = .ok w.combination_limit ∧
      set_window_combination_limit w limit =
        .ok ({ w with combination_limit := limit }, limit) ∧
      ({ w with combination_limit := limit } : Window).combination_limit =
        limit) := by
  refine ⟨?_, ?_, ?_⟩
  · intro h
    rw [window_combination_limit, set_window_combination_limit, h]
    exact ⟨rfl, rfl⟩
  · intro h
    cases hc : w.contents <;>
      simp_all [Window.is_live, Window.is_internal, LispObject.is_buffer,
        LispObject.is_window]
  · intro h
    rw [window_combination_limit, set_window_combination_limit, h]
    exact ⟨rfl, rfl, rfl⟩

/-- An internal window: its contents slot holds a (child) window. -/
def win6 : Window := { win0 with id := 6, contents := .window 7 }

/-- Witness for C6: the leaf `win0` makes both operations signal, the
internal `win6` supports get and set. -/
theorem c6_combination_limit_witness :
    window_combination_limit win0 =
      .error (.simple
        "Combination limit is meaningful for internal windows only") ∧
    window_combination_limit win6 = .ok .nil ∧
    set_window_combination_limit win6 .t =
      .ok ({ win6 with combination_limit := .t }, .t) := by
  refine ⟨((c6_combination_limit win0 .t).1 rfl).1, ?_, ?_⟩
  · exact ((c6_combination_limit win6 .t).2.2 rfl).1
  · exact ((c6_combination_limit win6 .t).2.2 rfl).2.1

/-- The process-wide state read by `CURRENT_MODE_LINE_FACE_ID_3`:
`globals.mode_line_in_non_selected_windows`, `selected_window`,
`minibuf_level` and `minibuf_selected_window` (imported into windows.rs
under the name `current_minibuf_window`). -/
structure Globals where
  mode_line_in_non_selected_windows : Bool
  selected_window : LispObject
  minibuf_level : Int
  minibuf_selected_window : LispObject
deriving DecidableEq, Repr

/-- The two mode-line face ids this function can pick. -/
inductive face_id where
  | MODE_LINE_FACE_ID
  | MODE_LINE_INACTIVE_FACE_ID
deriving DecidableEq, Repr

/-- Embeds `CURRENT_MODE_LINE_FACE_ID_3` (windows.rs): `current` is the selected
window, or null when the selected-window slot is not a window (modelled as
`none`); window refs are compared by pointer identity (their ids here). -/
def CURRENT_MODE_LINE_FACE_ID_3 (g : Globals) (selw mbw scrw : Nat) :
    face_id :=
  let current := g.selected_window.as_window
  if !g.mode_line_in_non_selected_windows || decide (some selw = current) then
    .MODE_LINE_FACE_ID
  else if decide (0 < g.minibuf_level) then
    match g.minibuf_selected_window.as_window with
    | some minibuf_window =>
      if decide (mbw = minibuf_window) && decide (scrw = minibuf_window) then
        .MODE_LINE_FACE_ID
      else
        .MODE_LINE_INACTIVE_FACE_ID
    | none => .MODE_LINE_INACTIVE_FACE_ID
  else
    .MODE_LINE_INACTIVE_FACE_ID

/-- The face selection rule as the spec words it: `Active` if the global
switch is off or the queried window is the selected one; else `Active` when a
minibuffer is active and MBW and SCRW both equal the active minibuffer
window; else `Inactive`. -/
def spec_mode_line_face (g : Globals) (selw mbw scrw : Nat) : face_id :=
  if g.mode_line_in_non_selected_windows = false ∨
      g.selected_window.as_window = some selw then
    .MODE_LINE_FACE_ID
  else if 0 < g.minibuf_level ∧
      g.minibuf_selected_window.as_window = some mbw ∧ scrw = mbw then
    .MODE_LINE_FACE_ID
  else
    .MODE_LINE_INACTIVE_FACE_ID

/-- C7: the mode-line face selection of the code agrees everywhere with the
spec's cascade. -/
theorem c7_mode_line_face (g : Globals) (selw mbw scrw : Nat) :
    CURRENT_MODE_LINE_FACE_ID_3 g selw mbw scrw =
      spec_mode_line_face g selw mbw scrw := by
  unfold CURRENT_MODE_LINE_FACE_ID_3 spec_mode_line_face
  cases hm : g.minibuf_selected_window.as_window with
  | none =>
    simp only [Bool.or_eq_true, Bool.not_eq_true', decide_eq_true_eq,
      Bool.and_eq_true]
    split_ifs <;> simp_all
  | some mw =>
    simp only [Bool.or_eq_true, Bool.not_eq_true', decide_eq_true_eq,
      Bool.and_eq_true]
    split_ifs <;> simp_all

/-- Embeds `wset_update_mode_line` (windows.rs), transcribed exactly: when the
frame's selected-window slot holds a window object, the global
`update_mode_lines` is set (to 42) only if that window is this one — the
branch setting the window's own `update_mode_line` flag is the `else` of the
`if let`, so it runs only when the slot is not a window object at all. -/
def wset_update_mode_line (w : Window) (update_mode_lines : Int) :
    Window × Int :=
  match w.frame.selected_window.as_window with
  | some win => if win = w.id then (w, 42) else (w, update_mode_lines)
  | none => ({ w with update_mode_line := true }, update_mode_lines)

/-- Embeds `set_window_start` (windows.rs).  The external `set_marker_restricted`
and `wset_redisplay` are modelled from the spec: the former relocates the
start marker to POS, the latter marks the window as needing redisplay.
Returns the window, the `update_mode_lines` global and POS. -/
def set_window_start (w : Window) (pos : LispObject) (noforce : Bool)
    (update_mode_lines : Int) : Window × Int × LispObject :=
  let w1 := { w with start := pos }
  let w2 := { w1 with start_at_line_beg := false }
  let w3 := if !noforce then { w2 with force_start := true } else w2
  let r := wset_update_mode_line w3 update_mode_lines
  let w4 := { r.1 with window_end_valid := false }
  let w5 := { w4 with redisplay := true }
  (w5, r.2, pos)

/-- A live window whose frame's selected window is a different window
object: the common case for `set-window-start` on a non-selected window. -/
def win8 : Window :=
  { win0 with
    id := 1
    frame := { frame0 with selected_window := .window 2 } }

/-- C8: evaluation at the failing input.  On a live window whose frame's
selected window is another window, `set_window_start` relocates the start
marker, clears the start-at-line-beginning and window-end-valid flags, sets
force-start and the redisplay mark — but signals no mode-line update at all:
the `update_mode_lines` global keeps its old value (0) and the window's
`update_mode_line` flag stays false, because `wset_update_mode_line`
attaches its flag-setting branch to the wrong test. -/
theorem c8_mode_line_signal_missed :
    (set_window_start win8 (.num 7) false 0).1.start = .num 7 ∧
    (set_window_start win8 (.num 7) false 0).1.start_at_line_beg = false ∧
    (set_window_start win8 (.num 7) false 0).1.force_start = true ∧
    (set_window_start win8 (.num 7) false 0).1.window_end_valid = false ∧
    (set_window_start win8 (.num 7) false 0).1.redisplay = true ∧
    (set_window_start win8 (.num 7) false 0).2.2 = .num 7 ∧
    (set_window_start win8 (.num 7) false 0).2.1 = 0 ∧
    (set_window_start win8 (.num 7) false 0).1.update_mode_line = false := by
  decide

/-- Modelled from the spec: `prefix_numeric_value` (interactive.rs, outside
this module) turns a raw prefix argument into a number; a numeric argument
yields its own value, which is the only case the claims exercise (the nil
case is intercepted before the call). -/
def prefix_numeric_value : LispObject → Int
  | .num n => n
  | _ => 1

/-- Modelled from the spec: `set_window_hscroll` (layout engine, outside
this module) clamps the requested column to the valid bounds
`[0, hscroll_max]`, stores it in the window and returns the stored value. -/
def set_window_hscroll (w : Window) (hscroll_max : Int) (hscroll : Int) :
    Window × Int :=
  let h := max 0 (min hscroll hscroll_max)
  ({ w with hscroll := h }, h)

/-- Embeds `scroll_horizontally` (windows.rs), acting on the selected window `w`;
`body_width` is the externally computed `window_body_width`, `hscroll_max`
the layout engine's clamping bound. -/
def scroll_horizontally (w : Window) (body_width hscroll_max : Int)
    (arg set_minimum : LispObject) (left : Bool) : Window × Int :=
  let requested_arg :=
    if arg = Qnil then body_width - 2
    else if left then prefix_numeric_value arg
    else - prefix_numeric_value arg
  let r := set_window_hscroll w hscroll_max (w.hscroll + requested_arg)
  let w1 :=
    if set_minimum.is_not_nil then { r.1 with min_hscroll := r.1.hscroll }
    else r.1
  let w2 := { w1 with suspend_auto_hscroll := true }
  (w2, r.2)

/-- C9: with a nil amount the requested delta is body width minus 2, applied
to `hscroll` through the layout engine's clamp; a non-nil SET-MINIMUM makes
`min_hscroll` equal to the new `hscroll`; `suspend_auto_hscroll` is set on
every call. -/
theorem c9_scroll_horizontally (w : Window) (body_width hscroll_max : Int)
    (arg set_minimum : LispObject) (left : Bool) :
    (scroll_horizontally w body_width hscroll_max Qnil set_minimum
        left).1.hscroll =
      max 0 (min (w.hscroll + (body_width - 2)) hscroll_max) ∧
    (set_minimum ≠ Qnil →
      (scroll_horizontally w body_width hscroll_max arg set_minimum
          left).1.min_hscroll =
        (scroll_horizontally w body_width hscroll_max arg set_minimum
          left).1.hscroll) ∧
    (scroll_horizontally w body_width hscroll_max arg set_minimum
        left).1.suspend_auto_hscroll = true := by
  refine ⟨?_, ?_, ?_⟩
  · rw [scroll_horizontally]
    by_cases h : set_minimum.is_not_nil <;> simp [h, set_window_hscroll]
  · intro h
    have h' : set_minimum.is_not_nil = true :=
      (LispObject.is_not_nil_iff set_minimum).mpr (by simpa [Qnil] using h)
    rw [scroll_horizontally]
    simp [h', set_window_hscroll]
  · rfl

/-- Witness for C9: body width 10, clamp bound 1000, nil amount, SET-MINIMUM
t: the window scrolls to column 8 and `min_hscroll` follows. -/
theorem c9_scroll_horizontally_witness :
    (scroll_horizontally win0 10 1000 Qnil .t true).1.hscroll = 8 ∧
    ((.t : LispObject) ≠ Qnil) ∧
    (scroll_horizontally win0 10 1000 Qnil .t true).1.min_hscroll =
      (scroll_horizontally win0 10 1000 Qnil .t true).1.hscroll ∧
    (scroll_horizontally win0 10 1000 Qnil .t true).1.suspend_auto_hscroll =
      true := by
  have h := c9_scroll_horizontally win0 10 1000 Qnil .t true
  exact ⟨h.1.trans (by decide), by decide, h.2.1 (by decide), h.2.2⟩

/-- The state `window-dedicated-p` and `set-window-dedicated-p` run in: the
selected-window global plus the window objects, addressed by id. -/
structure WEnv where
  selected_window : LispObject
  windows : Nat → Window

/-- Embeds `LispWindowOrSelected` followed by `as_window_or_error` (windows.rs):
nil picks the selected window; any window object — live, internal or
deleted alike — is accepted; anything else signals a wrong-type error
carrying `windowp` and the offending (resolved) object. -/
def decode_any_window (e : WEnv) (obj : LispObject) : Except LispError Nat :=
  let o := if obj = Qnil then e.selected_window else obj
  match o.as_window with
  | some i => .ok i
  | none => .error (.wrong_type "windowp" o)

/-- Embeds `window_dedicated_p` (windows.rs): the stored `dedicated` value of the
decoded window. -/
def window_dedicated_p (e : WEnv) (obj : LispObject) :
    Except LispError LispObject :=
  match decode_any_window e obj with
  | .ok i => .ok (e.windows i).dedicated
  | .error err => .error err

/-- Embeds `set_window_dedicated_p` (windows.rs): store FLAG, unvalidated, in the
decoded window and return FLAG. -/
def set_window_dedicated_p (e : WEnv) (obj : LispObject)
    (flag : LispObject) : Except LispError (WEnv × LispObject) :=
  match decode_any_window e obj with
  | .ok i =>
    .ok ({ e with windows := fun j =>
        if j = i then { (e.windows j) with dedicated := flag }
        else e.windows j }, flag)
  | .error err => .error err

/-- C10: any window argument (or nil, via the selected window) is accepted —
no liveness or validity check — and a non-nil non-window argument signals
the `windowp` wrong-type error; the setter stores FLAG unvalidated and
returns it, and the getter reads back exactly the last stored value. -/
theorem c10_dedicated (e : WEnv) (obj flag : LispObject) :
    (∀ i, obj = .window i →
      window_dedicated_p e obj = .ok (e.windows i).dedicated ∧
      (set_window_dedicated_p e obj flag).isOk = true) ∧
    (∀ i, obj = Qnil → e.selected_window = .window i →
      window_dedicated_p e obj = .ok (e.windows i).dedicated ∧
      (set_window_dedicated_p e obj flag).isOk = true) ∧
    (obj ≠ Qnil → obj.as_window = none →
      window_dedicated_p e obj = .error (.wrong_type "windowp" obj) ∧
      set_window_dedicated_p e obj flag =
        .error (.wrong_type "windowp" obj)) ∧
    (∀ e' v, set_window_dedicated_p e obj flag = .ok (e', v) →
      v = flag ∧ window_dedicated_p e' obj = .ok flag) := by
  refine ⟨?_, ?_, ?_, ?_⟩
  · rintro i rfl
    constructor
    · rw [window_dedicated_p]
      have : decode_any_window e (.window i) = .ok i := by
        rw [decode_any_window]
        simp [Qnil, LispObject.as_window]
      rw [this]
    · rw [set_window_dedicated_p]
      have : decode_any_window e (.window i) = .ok i := by
        rw [decode_any_window]
        simp [Qnil, LispObject.as_window]
      rw [this]
      rfl
  · rintro i rfl hsel
    have hd : decode_any_window e Qnil = .ok i := by
      rw [decode_any_window]
      simp [hsel, LispObject.as_window]
    constructor
    · rw [window_dedicated_p, hd]
    · rw [set_window_dedicated_p, hd]
      rfl
  · intro hne hnw
    have hd : decode_any_window e obj = .error (.wrong_type "windowp" obj) := by
      rw [decode_any_window]
      simp [hne, hnw]
    exact ⟨by rw [window_dedicated_p, hd], by rw [set_window_dedicated_p, hd]⟩
  · intro e' v hset
    rw [set_window_dedicated_p] at hset
    cases hd : decode_any_window e obj with
    | error err => rw [hd] at hset; exact absurd hset (by simp)
    | ok i =>
      rw [hd] at hset
      simp only [Except.ok.injEq, Prod.mk.injEq] at hset
      obtain ⟨he, hv⟩ := hset
      subst he
      subst hv
      refine ⟨rfl, ?_⟩
      have hd' : decode_any_window
          { e with windows := fun j =>
              if j = i then { (e.windows j) with dedicated := flag }
              else e.windows j } obj = .ok i := by
        rw [decode_any_window] at hd ⊢
        exact hd
      rw [window_dedicated_p, hd']
      simp

/-- Concrete state for the C10 witness: window 5 exists (its record is the
deleted-window variant of `win0`, showing the absence of a liveness check),
window 0 is selected. -/
def e10 : WEnv :=
  { selected_window := .window 0,
    windows := fun i => if i = 5 then { win0 with contents := .nil } else win0 }

/-- Witness for C10: a deleted (Empty) window is accepted, a number is
rejected with the `windowp` wrong-type error, and a set/get round trip
returns the stored flag. -/
theorem c10_dedicated_witness :
    window_dedicated_p e10 (.window 5) = .ok .nil ∧
    (set_window_dedicated_p e10 (.window 5) .t).isOk = true ∧
    window_dedicated_p e10 (.num 3) =
      .error (.wrong_type "windowp" (.num 3)) ∧
    ((set_window_dedicated_p e10 (.window 5) .t).toOption.map
        (fun p => window_dedicated_p p.1 (.window 5))) =
      some (.ok .t) := by
  have h1 := (c10_dedicated e10 (.window 5) .t).1 5 rfl
  have h3 := (c10_dedicated e10 (.num 3) .t).2.2.1 (by decide) (by decide)
  refine ⟨by rw [h1.1]; rfl, h1.2, h3.1, ?_⟩
  have h4 := (c10_dedicated e10 (.window 5) .t).2.2.2
  cases hset : set_window_dedicated_p e10 (.window 5) .t with
  | error err =>
    rw [hset] at h1
    exact Bool.noConfusion h1.2
  | ok p =>
    have := h4 p.1 p.2 (by rw [hset])
    show some (window_dedicated_p p.1 (.window 5)) = some (.ok .t)
    rw [this.2]

end Remacs
